import Mathlib

/-!
Shallow embedding of `src/main.py` (hatebu-web-clipper-for-obsidian),
the `HatebuClipper` class: token loading and the OAuth handshake,
bookmark search, per-item download/convert/save/delete, and the `run`
orchestration loop.

External interactions (HTTP calls, file writes, console output, logging)
are recorded as an explicit trace of `Effect`s.  The outcomes of the
external world (responses of remote endpoints, token-file contents, the
result of the converter) are supplied by an `Env` record.  An uncaught Python
exception is modelled as an `Except.error Crash` result; effects emitted
before the exception remain in the trace.
-/

namespace Hatebu

/-- Python truthiness of an optional string: `None` and `""` are falsy
(`if not url`, `if not self.save_dir`, `all([...])` in the source). -/
def strTruthy : Option String → Bool
  | none => false
  | some s => !(s == "")

/-- The token dictionary as consumed by `authenticate`: the two fields are
looked up with `.get`, so each may be missing. -/
structure Tokens where
  oauth_token : Option String
  oauth_token_secret : Option String
deriving DecidableEq, Repr

/-- A bookmark entry object: `entry.get("url")`, `entry.get("title", ...)`. -/
structure Entry where
  url : Option String
  title : Option String
deriving DecidableEq, Repr

/-- One element of the search response bookmarks array:
`bookmark.get("entry", \x7b\x7d)`. -/
structure Bookmark where
  entry : Option Entry
deriving DecidableEq, Repr

/-- The parsed JSON of the search endpoint: `data.get("bookmarks", [])`
and the optional `error` field. -/
structure SearchData where
  bookmarks : Option (List Bookmark)
  error : Option String
deriving DecidableEq, Repr

/-- Outcome of the authenticated search GET in `_fetch_bookmark_list`:
a `requests.RequestException` (transport failure or, via
`raise_for_status`, a non-success status), a `json.JSONDecodeError` from
`response.json()`, or a parsed body. -/
inductive SearchOutcome
  | requestError
  | jsonDecodeError
  | parsed (d : SearchData)
deriving DecidableEq, Repr

/-- Outcome of `requests.get(url, timeout=10)` in `_download_and_convert`:
a raised transport error, or a response with a status (`ok` is whether
`raise_for_status` passes) and a body text. -/
inductive FetchOutcome
  | transportError
  | status (ok : Bool) (body : String)
deriving DecidableEq, Repr

/-- Outcome of `session.delete(...)` in `_delete_bookmark`. -/
inductive DeleteOutcome
  | transportError
  | status (ok : Bool)
deriving DecidableEq, Repr

/-- An uncaught Python exception escaping the orchestrator. -/
inductive Crash
  | requestException
  | jsonDecodeError
deriving DecidableEq, Repr

/-- Observable side effects of the pipeline, in program order. -/
inductive Effect
  | logInfo (msg : String)
  | logWarning (msg : String)
  | logError (msg : String)
  | printOut (msg : String)
  | promptVerifier
  | tokenFileWrite (t : Tokens)
  | httpSearch (tag : String)
  | httpGetPage (url : String)
  | makeDirs (dir : String)
  | fileWrite (path : String) (content : String)
  | httpDelete (url : String)
deriving DecidableEq, Repr

/-- Constructor-arguments of `HatebuClipper.__init__` that drive `run`
(consumer key and secret only feed the OAuth sessions and are absorbed
into `Env`). -/
structure Config where
  save_dir : Option String
  dryrun : Bool
  delete_bookmark : Bool
deriving DecidableEq, Repr

/-- The dict returned by `oauth.fetch_request_token`. -/
structure RequestTokenResp where
  oauth_token : Option String
  oauth_token_secret : Option String
deriving DecidableEq, Repr

/-- The external world: token-file state, remote endpoint behaviour, the
converter, and the current local date used for the artifact name.
`tokenFile = none` means `os.path.exists(TOKEN_FILE)` is false; otherwise
it carries the outcome of `json.load` on the file contents. -/
structure Env where
  tokenFile : Option (Except Unit Tokens)
  requestTokenStep : Except Unit RequestTokenResp
  accessTokenStep : Except Unit Tokens
  search : String → SearchOutcome
  fetchPage : String → FetchOutcome
  convert : String → Except Unit String
  deleteReq : String → DeleteOutcome
  today : String

/-- `HatebuClipper._get_access_tokens`: the three-legged OAuth flow.
Failures of the request-token fetch and of the access-token exchange are
caught and yield `None`; a successful exchange writes the token file. -/
def get_access_tokens (env : Env) : List Effect × Option Tokens :=
  let fx0 : List Effect := [.logInfo "Getting request token..."]
  match env.requestTokenStep with
  | .error _ => (fx0 ++ [.logError "Failed to get request token."], none)
  | .ok _resp =>
    let fx1 := fx0 ++
      [.printOut "Please access the following URL to authenticate:",
       .printOut "authorization url",
       .promptVerifier,
       .logInfo "Getting access token..."]
    match env.accessTokenStep with
    | .error _ => (fx1 ++ [.logError "Failed to get access token."], none)
    | .ok tokens =>
      (fx1 ++ [.tokenFileWrite tokens, .logInfo "Access tokens saved to tokens.json."],
       some tokens)

/-- `HatebuClipper._load_or_create_tokens`: if the token file exists it is
read with `json.load` (a decode failure is NOT caught and propagates);
otherwise the OAuth flow is started. -/
def load_or_create_tokens (env : Env) : List Effect × Except Crash (Option Tokens) :=
  match env.tokenFile with
  | some parse =>
    let fx0 : List Effect := [.logInfo "Loading access tokens from tokens.json."]
    match parse with
    | .ok t => (fx0, .ok (some t))
    | .error _ => (fx0, .error .jsonDecodeError)
  | none =>
    let r := get_access_tokens env
    ([Effect.logWarning "Could not find tokens.json. Starting new authentication flow."]
      ++ r.1, .ok r.2)

/-- `HatebuClipper.authenticate`: obtains tokens, checks both fields are
truthy, and on success installs the OAuth session. -/
def authenticate (env : Env) : List Effect × Except Crash Bool :=
  match load_or_create_tokens env with
  | (fx, .error c) => (fx, .error c)
  | (fx, .ok none) =>
    (fx ++ [.logError "Authentication failed. Could not get tokens."], .ok false)
  | (fx, .ok (some tokens)) =>
    if strTruthy tokens.oauth_token && strTruthy tokens.oauth_token_secret then
      (fx ++ [.logInfo "Authentication successful."], .ok true)
    else
      (fx ++ [.logError "Access token or secret is missing in the token file."], .ok false)

/-- `HatebuClipper._fetch_bookmark_list`: one authenticated search GET.
Transport/status and JSON-decode failures are caught and yield `none`;
a missing or empty bookmarks array yields the empty list (with the
no-results log line, and the error field logged when present). -/
def fetch_bookmark_list (hasSession : Bool) (env : Env) (tag : String) :
    List Effect × Option (List Bookmark) :=
  if !hasSession then ([.logError "Session not authenticated."], none)
  else
    let fx0 : List Effect :=
      [.logInfo "Searching for bookmarks with tag...", .httpSearch tag]
    match env.search tag with
    | .requestError => (fx0 ++ [.logError "Failed to fetch or parse bookmarks."], none)
    | .jsonDecodeError => (fx0 ++ [.logError "Failed to fetch or parse bookmarks."], none)
    | .parsed d =>
      let bookmarks := d.bookmarks.getD []
      if bookmarks.isEmpty then
        let fxe : List Effect :=
          match d.error with
          | some e => [.logError ("API Error: " ++ e)]
          | none => []
        (fx0 ++ [.logInfo "No bookmarks found for the specified tag."] ++ fxe,
         some bookmarks)
      else (fx0, some bookmarks)

/-- `HatebuClipper._download_and_convert`: `requests.get` and
`raise_for_status` are NOT wrapped (a failure propagates as an uncaught
`RequestException`); only the converter call is wrapped, a conversion
failure is logged and yields the empty string. -/
def download_and_convert (env : Env) (url : String) : List Effect × Except Crash String :=
  let fx0 : List Effect := [.logInfo "Downloading data from URL...", .httpGetPage url]
  match env.fetchPage url with
  | .transportError => (fx0, .error .requestException)
  | .status ok body =>
    if !ok then (fx0, .error .requestException)
    else
      let fx1 := fx0 ++ [.logInfo "Converting data to Markdown..."]
      match env.convert body with
      | .error _ => (fx1 ++ [.logError "Failed to convert data to Markdown."], .ok "")
      | .ok text => (fx1, .ok text)

/-- Characters that `pathvalidate.sanitize_filename` removes. -/
def illegalFilenameChars : List Char :=
  ['\\', '/', ':', '*', '?', '"', '<', '>', '|']

/-- Modelled from the spec: the external `pathvalidate.sanitize_filename`
collaborator (not part of this repository), which strips characters
illegal in filenames on common filesystems. -/
def sanitize_filename (title : String) : String :=
  String.mk (title.toList.filter (fun c => !(illegalFilenameChars.contains c)))

/-- `os.path.join` for a relative file name. -/
def os_path_join (dir file : String) : String :=
  if dir == "" then file
  else if dir.toList.getLast? == some '/' then dir ++ file
  else dir ++ "/" ++ file

/-- `HatebuClipper._save_markdown`: skip (with a warning) when no save
directory is configured; otherwise compose the dated sanitized path, log
the save, and under dryrun stop before creating the directory or the
file. -/
def save_markdown (cfg : Config) (today : String) (title content : String) : List Effect :=
  if !(strTruthy cfg.save_dir) then
    [.logWarning "Save directory not specified. Skipping save."]
  else
    let dir := cfg.save_dir.getD ""
    let safe_title := sanitize_filename title
    let file_name := today ++ "_" ++ safe_title ++ ".md"
    let file_path := os_path_join dir file_name
    let fx0 : List Effect := [.logInfo ("Saving Markdown to " ++ file_path ++ "...")]
    if cfg.dryrun then
      fx0 ++ [.logInfo ("DRY RUN: Skipping file write to " ++ file_path ++ ".")]
    else
      fx0 ++ [.makeDirs dir, .fileWrite file_path content]

/-- `HatebuClipper._delete_bookmark`: skipped under dryrun; otherwise the
authenticated DELETE is issued and `raise_for_status` is NOT wrapped, so
a failure propagates as an uncaught `RequestException`. -/
def delete_bookmark (hasSession : Bool) (cfg : Config) (env : Env) (url : String) :
    List Effect × Except Crash Unit :=
  if !hasSession then ([.logError "Session not authenticated."], .ok ())
  else
    let fx0 : List Effect := [.logInfo ("Deleting bookmark for " ++ url ++ "...")]
    if cfg.dryrun then
      (fx0 ++ [.logInfo ("DRY RUN: Skipping bookmark deletion for " ++ url ++ ".")], .ok ())
    else
      match env.deleteReq url with
      | .transportError => (fx0 ++ [.httpDelete url], .error .requestException)
      | .status ok =>
        if ok then
          (fx0 ++ [.httpDelete url, .logInfo "Bookmark deleted successfully."], .ok ())
        else (fx0 ++ [.httpDelete url], .error .requestException)

/-- `bookmark.get("entry", \x7b\x7d)`. -/
def getEntry (bm : Bookmark) : Entry := bm.entry.getD ⟨none, none⟩

/-- How the per-bookmark loop in `run` ends: the whole list consumed, the
early `return` taken when the delete policy is off, or an uncaught
exception. -/
inductive LoopExit
  | finished
  | earlyReturn
  | crashed (c : Crash)
deriving DecidableEq, Repr

/-- The `for bookmark in bookmarks` loop body of `HatebuClipper.run`:
skip entries without a truthy URL, download and convert, print or save a
non-empty result, return early when the delete policy is off, otherwise
delete and continue. -/
def processLoop (cfg : Config) (env : Env) : List Bookmark → List Effect × LoopExit
  | [] => ([], .finished)
  | bm :: rest =>
    let entry := getEntry bm
    let title := entry.title.getD "No Title"
    if !(strTruthy entry.url) then
      let r := processLoop cfg env rest
      ([Effect.logWarning "Bookmark with no URL found. Skipping."] ++ r.1, r.2)
    else
      let url := entry.url.getD ""
      let fx0 : List Effect := [.logInfo ("--- Processing: " ++ title ++ " ---")]
      match download_and_convert env url with
      | (fxd, .error c) => (fx0 ++ fxd, .crashed c)
      | (fxd, .ok md) =>
        let fxs : List Effect :=
          if !(md == "") then
            if !(strTruthy cfg.save_dir) then
              [.printOut "--- Markdown Output ---", .printOut md,
               .printOut "--- End of Markdown ---"]
            else save_markdown cfg env.today title md
          else []
        if !cfg.delete_bookmark then (fx0 ++ fxd ++ fxs, .earlyReturn)
        else
          match delete_bookmark true cfg env url with
          | (fxdel, .error c) => (fx0 ++ fxd ++ fxs ++ fxdel, .crashed c)
          | (fxdel, .ok _) =>
            let r := processLoop cfg env rest
            (fx0 ++ fxd ++ fxs ++ fxdel ++ r.1, r.2)

/-- `HatebuClipper.run`: authenticate, fetch the bookmark list once, end
early on a falsy list, otherwise run the per-item loop. -/
def run (cfg : Config) (env : Env) (tag : String) : List Effect × Except Crash Unit :=
  match authenticate env with
  | (fx, .error c) => (fx, .error c)
  | (fx, .ok false) => (fx, .ok ())
  | (fx, .ok true) =>
    match fetch_bookmark_list true env tag with
    | (fx2, none) => (fx ++ fx2, .ok ())
    | (fx2, some bms) =>
      if bms.isEmpty then (fx ++ fx2, .ok ())
      else
        let found : List Effect := [.logInfo "--- Found bookmarks for tag ---"]
        match processLoop cfg env bms with
        | (fx3, .finished) =>
          (fx ++ fx2 ++ found ++ fx3 ++ [.logInfo "--- All bookmarks processed. ---"], .ok ())
        | (fx3, .earlyReturn) => (fx ++ fx2 ++ found ++ fx3, .ok ())
        | (fx3, .crashed c) => (fx ++ fx2 ++ found ++ fx3, .error c)

/-- Is the effect an archive-file write? -/
def isWriteEffect : Effect → Bool
  | .fileWrite _ _ => true
  | _ => false

/-- Is the effect a directory creation? -/
def isMkdirEffect : Effect → Bool
  | .makeDirs _ => true
  | _ => false

/-- Is the effect a remote delete request? -/
def isDeleteEffect : Effect → Bool
  | .httpDelete _ => true
  | _ => false

/-- Is the effect a page fetch, and for which URL? -/
def pageFetchUrl : Effect → Option String
  | .httpGetPage u => some u
  | _ => none

/-- Is the effect a token-file write? -/
def isTokenWrite : Effect → Bool
  | .tokenFileWrite _ => true
  | _ => false

/-- Is the effect the search GET? -/
def isSearchEffect : Effect → Bool
  | .httpSearch _ => true
  | _ => false

/-- Is the effect a page fetch? -/
def isPageFetch : Effect → Bool
  | .httpGetPage _ => true
  | _ => false

/-- The URL of the first bookmark in the list with a truthy URL. -/
def firstEligibleUrl : List Bookmark → Option String
  | [] => none
  | bm :: rest =>
    if strTruthy (getEntry bm).url then (getEntry bm).url
    else firstEligibleUrl rest

/-! Concrete fixtures used by witnesses and counterexamples. -/

/-- A token pair as stored by a successful handshake. -/
def tokens0 : Tokens := ⟨some "test_token", some "test_secret"⟩

/-- A bookmark with a resolvable URL and a title. -/
def bm0 : Bookmark := ⟨some ⟨some "http://example.com", some "Example Title"⟩⟩

/-- A second bookmark, used to observe whether the loop continues. -/
def bm1 : Bookmark := ⟨some ⟨some "http://second.example", some "Second Title"⟩⟩

/-- A configuration with a save directory, deletion on, dryrun off. -/
def cfg0 : Config := ⟨some "vault", false, true⟩

/-- A benign environment: cached tokens, one-step-success endpoints. -/
def baseEnv : Env where
  tokenFile := some (Except.ok tokens0)
  requestTokenStep := Except.ok ⟨some "rk", some "rs"⟩
  accessTokenStep := Except.ok tokens0
  search := fun _ => SearchOutcome.parsed ⟨some [bm0], none⟩
  fetchPage := fun _ => FetchOutcome.status true "page body"
  convert := fun b => Except.ok ("md " ++ b)
  deleteReq := fun _ => DeleteOutcome.status true
  today := "20261012"

/-! Helper lemmas about the shape of component traces. -/

/-- Is the effect console-only (logging, printing, prompting)? -/
def isConsole : Effect → Bool
  | .logInfo _ => true
  | .logWarning _ => true
  | .logError _ => true
  | .printOut _ => true
  | .promptVerifier => true
  | _ => false

/-- Monotonicity bridge between trace-shape predicates. -/
theorem all_imp_of_all (p q : Effect → Bool) (h : ∀ e, q e = true → p e = true)
    (l : List Effect) (hl : l.all q = true) : l.all p = true := by
  rw [List.all_eq_true] at hl ⊢
  intro e he
  exact h e (hl e he)

/-- The handshake emits only console output and the token-file write. -/
theorem get_access_tokens_all_shape (env : Env) :
    (get_access_tokens env).1.all (fun e => isConsole e || isTokenWrite e) = true := by
  unfold get_access_tokens
  rcases env.requestTokenStep with u | r
  · rfl
  · rcases env.accessTokenStep with v | t <;> rfl

/-- Token loading emits only console output and the token-file write. -/
theorem load_or_create_tokens_all_shape (env : Env) :
    (load_or_create_tokens env).1.all (fun e => isConsole e || isTokenWrite e) = true := by
  unfold load_or_create_tokens
  rcases env.tokenFile with _ | parse
  · simp only [List.all_append, get_access_tokens_all_shape env, Bool.and_true]
    rfl
  · rcases parse with u | t <;> rfl

/-- Authentication emits only console output and the token-file write. -/
theorem authenticate_all_shape (env : Env) :
    (authenticate env).1.all (fun e => isConsole e || isTokenWrite e) = true := by
  unfold authenticate
  rcases hl : load_or_create_tokens env with ⟨fx, r⟩
  have hfx : fx.all (fun e => isConsole e || isTokenWrite e) = true := by
    have := load_or_create_tokens_all_shape env
    rw [hl] at this
    exact this
  rcases r with c | ot
  · exact hfx
  · rcases ot with _ | t
    · simp only [List.all_append, hfx, Bool.true_and]
      rfl
    · by_cases ht : (strTruthy t.oauth_token && strTruthy t.oauth_token_secret) = true <;>
        simp only [ht, if_true, if_false, ite_true, ite_false, Bool.false_eq_true,
          List.all_append, hfx, Bool.true_and] <;> rfl

/-- The bookmark search emits only console output and the search GET. -/
theorem fetch_bookmark_list_all_shape (hs : Bool) (env : Env) (tag : String) :
    (fetch_bookmark_list hs env tag).1.all
      (fun e => isConsole e || isSearchEffect e) = true := by
  unfold fetch_bookmark_list
  rcases hs
  · rfl
  · rcases env.search tag with _ | _ | d
    · rfl
    · rfl
    · by_cases hb : (d.bookmarks.getD []).isEmpty = true
      · rcases herr : d.error with _ | msg <;>
          simp only [herr, hb, if_true, ite_true] <;> rfl
      · simp only [hb, if_false, ite_false, Bool.false_eq_true]
        rfl

/-- Download-and-convert emits only console output and the page GET. -/
theorem download_and_convert_all_shape (env : Env) (url : String) :
    (download_and_convert env url).1.all
      (fun e => isConsole e || isPageFetch e) = true := by
  unfold download_and_convert
  rcases env.fetchPage url with _ | ⟨ok, body⟩
  · rfl
  · cases ok
    · rfl
    · rcases hc : env.convert body with u | t <;> simp only [hc] <;> rfl

/-- Under dryrun the save step emits only console output. -/
theorem save_markdown_dryrun_all_console (cfg : Config) (today title content : String)
    (hdry : cfg.dryrun = true) :
    (save_markdown cfg today title content).all isConsole = true := by
  unfold save_markdown
  by_cases hsd : strTruthy cfg.save_dir = true <;>
    simp only [hsd, hdry, Bool.not_true, Bool.not_false, if_true, if_false,
      Bool.false_eq_true, ite_true, ite_false] <;> rfl

/-- Under dryrun the delete step emits only console output. -/
theorem delete_bookmark_dryrun_all_console (hs : Bool) (cfg : Config) (env : Env)
    (url : String) (hdry : cfg.dryrun = true) :
    (delete_bookmark hs cfg env url).1.all isConsole = true := by
  unfold delete_bookmark
  rcases hs
  · rfl
  · simp only [hdry, Bool.not_true, Bool.not_false, if_true, if_false, ite_true,
      ite_false, Bool.false_eq_true]
    rfl

/-- Environment with an existing but unparseable token file. -/
def envC5 : Env := { baseEnv with tokenFile := some (Except.error ()) }

/-- C5 counterexample: when the token file exists but its content does not
parse, `_load_or_create_tokens` raises the decode error (an uncaught
exception that aborts the run) instead of yielding absent. -/
theorem load_tokens_unparseable_raises :
    (load_or_create_tokens envC5).2 = Except.error Crash.jsonDecodeError ∧
    (load_or_create_tokens envC5).2 ≠ Except.ok none := by
  refine ⟨rfl, ?_⟩
  intro h
  rw [show (load_or_create_tokens envC5).2 = Except.error Crash.jsonDecodeError from rfl] at h
  exact Except.noConfusion h

/-- C5 (amended): the credential load returns the stored pair whenever the
token file exists and parses as the expected structure; when the file does
not exist it falls through to the authentication flow; but when the file
exists with unparseable content the decode error propagates (the run
crashes) rather than yielding absent. -/
theorem load_tokens_spec (env : Env) (t : Tokens) :
    (env.tokenFile = some (Except.ok t) →
      (load_or_create_tokens env).2 = Except.ok (some t)) ∧
    (env.tokenFile = none →
      (load_or_create_tokens env).2 = Except.ok (get_access_tokens env).2) ∧
    (env.tokenFile = some (Except.error ()) →
      (load_or_create_tokens env).2 = Except.error Crash.jsonDecodeError) := by
  refine ⟨?_, ?_, ?_⟩ <;> intro h <;> simp [load_or_create_tokens, h]

/-- C5 witness: on the concrete benign environment the stored pair is
returned. -/
theorem load_tokens_spec_witness :
    (load_or_create_tokens baseEnv).2 = Except.ok (some tokens0) :=
  (load_tokens_spec baseEnv tokens0).1 rfl

/-- C8: with a configured save directory and dryrun off, the artifact write
lands at save_dir/YYYYMMDD_sanitizedTitle.md where the sanitized title
contains none of the filesystem-illegal characters. -/
theorem artifact_path_shape (cfg : Config) (dir title content : String)
    (hdir : cfg.save_dir = some dir) (hne : dir ≠ "") (hdry : cfg.dryrun = false) :
    (∀ today, Effect.fileWrite
        (os_path_join dir (today ++ "_" ++ sanitize_filename title ++ ".md"))
        content ∈ save_markdown cfg today title content) ∧
    ∀ c ∈ (sanitize_filename title).toList, c ∉ illegalFilenameChars := by
  constructor
  · intro today
    simp [save_markdown, hdir, hdry, strTruthy, hne]
  · intro c hc
    simp [sanitize_filename, List.mem_filter] at hc
    simpa using hc.2

/-- C8 witness: a concrete title with illegal characters. -/
theorem artifact_path_shape_witness :
    (Effect.fileWrite
      (os_path_join "vault"
        ("20261012" ++ "_" ++ sanitize_filename "Title/With:Bad*Chars" ++ ".md"))
      "content" ∈ save_markdown cfg0 "20261012" "Title/With:Bad*Chars" "content") ∧
    ∀ c ∈ (sanitize_filename "Title/With:Bad*Chars").toList,
      c ∉ illegalFilenameChars := by
  have h := artifact_path_shape cfg0 "vault" "Title/With:Bad*Chars" "content" rfl
    (by decide) rfl
  exact ⟨h.1 "20261012", h.2⟩

/-- C9: when no token file exists and the handshake fails at the
request-token step or at the access-token exchange, the handshake yields
absent, no credential is persisted to the token file, and the run aborts
cleanly without searching, fetching, saving or deleting anything. -/
theorem handshake_failure_aborts (cfg : Config) (env : Env) (tag : String)
    (hfile : env.tokenFile = none)
    (hfail : env.requestTokenStep = Except.error () ∨
      env.accessTokenStep = Except.error ()) :
    (get_access_tokens env).2 = none ∧
    (get_access_tokens env).1.all (fun e => !isTokenWrite e) = true ∧
    (run cfg env tag).2 = Except.ok () ∧
    (run cfg env tag).1.all
      (fun e => !isTokenWrite e && !isSearchEffect e && !isPageFetch e &&
        !isWriteEffect e && !isDeleteEffect e) = true := by
  rcases hfail with h | h
  · refine ⟨?_, ?_, ?_, ?_⟩ <;>
      simp [run, authenticate, load_or_create_tokens, get_access_tokens, hfile, h,
        isTokenWrite, isSearchEffect, isPageFetch, isWriteEffect, isDeleteEffect]
  · rcases hrt : env.requestTokenStep with u | r <;>
      refine ⟨?_, ?_, ?_, ?_⟩ <;>
      simp [run, authenticate, load_or_create_tokens, get_access_tokens, hfile, h,
        hrt, isTokenWrite, isSearchEffect, isPageFetch, isWriteEffect, isDeleteEffect]

/-- Environment for the C9 witness: no token file, request-token step fails. -/
def envC9 : Env :=
  { baseEnv with tokenFile := none, requestTokenStep := Except.error () }

/-- C9 witness: the concrete failing-handshake environment. -/
theorem handshake_failure_aborts_witness :
    (get_access_tokens envC9).2 = none ∧
    (get_access_tokens envC9).1.all (fun e => !isTokenWrite e) = true ∧
    (run cfg0 envC9 "obsidian").2 = Except.ok () ∧
    (run cfg0 envC9 "obsidian").1.all
      (fun e => !isTokenWrite e && !isSearchEffect e && !isPageFetch e &&
        !isWriteEffect e && !isDeleteEffect e) = true :=
  handshake_failure_aborts cfg0 envC9 "obsidian" rfl (Or.inl rfl)

/-- C10: a parsed search response with a missing or empty bookmarks array
yields the empty list (not an error), the no-results line is logged (plus
the error field when present), and the run then ends cleanly with no page
fetch, no file write, and no delete. -/
theorem empty_bookmarks_clean_end (cfg : Config) (env : Env) (tag : String)
    (d : SearchData) (hs : env.search tag = SearchOutcome.parsed d)
    (hb : d.bookmarks = none ∨ d.bookmarks = some []) :
    (fetch_bookmark_list true env tag).2 = some [] ∧
    Effect.logInfo "No bookmarks found for the specified tag." ∈
      (fetch_bookmark_list true env tag).1 ∧
    (∀ msg, d.error = some msg →
      Effect.logError ("API Error: " ++ msg) ∈ (fetch_bookmark_list true env tag).1) ∧
    ((authenticate env).2 = Except.ok true →
      (run cfg env tag).2 = Except.ok () ∧
      (run cfg env tag).1.all
        (fun e => !isPageFetch e && !isWriteEffect e && !isDeleteEffect e) = true) := by
  have hbooks : d.bookmarks.getD [] = [] := by
    rcases hb with hb | hb <;> simp [hb]
  have hfeq : fetch_bookmark_list true env tag =
      ([Effect.logInfo "Searching for bookmarks with tag...", Effect.httpSearch tag,
        Effect.logInfo "No bookmarks found for the specified tag."] ++
        (match d.error with
          | some e => [Effect.logError ("API Error: " ++ e)]
          | none => []), some []) := by
    unfold fetch_bookmark_list
    rw [hs]
    rcases herr : d.error with _ | msg <;> simp [hbooks, herr]
  refine ⟨?_, ?_, ?_, ?_⟩
  · rw [hfeq]
  · rw [hfeq]
    rcases herr : d.error with _ | msg <;> simp [herr]
  · intro m hm
    rw [hfeq]
    simp [hm]
  · intro hauth
    rcases hA : authenticate env with ⟨fxa, ra⟩
    rw [hA] at hauth
    simp only at hauth
    subst hauth
    have hfxa : fxa.all (fun e => isConsole e || isTokenWrite e) = true := by
      have := authenticate_all_shape env
      rw [hA] at this
      exact this
    have hbridge : ∀ e, (isConsole e || isTokenWrite e) = true →
        (!isPageFetch e && !isWriteEffect e && !isDeleteEffect e) = true := by
      intro e
      cases e <;> simp [isConsole, isTokenWrite, isPageFetch, isWriteEffect,
        isDeleteEffect]
    constructor
    · rcases herr : d.error with _ | msg <;> simp [run, hA, hfeq, herr]
    · simp only [run, hA, hfeq]
      rcases herr : d.error with _ | msg <;>
        simp only [herr, List.isEmpty_nil, if_true, ite_true, List.all_append] <;>
        rw [all_imp_of_all _ _ hbridge fxa hfxa] <;>
        simp [isPageFetch, isWriteEffect, isDeleteEffect]

/-- Environment for the C10 witness: the search returns an empty bookmarks
array together with an error field. -/
def envC10 : Env :=
  { baseEnv with search := fun _ => SearchOutcome.parsed ⟨some [], some "api broke"⟩ }

/-- C10 witness: the concrete empty-response environment. -/
theorem empty_bookmarks_clean_end_witness :
    (fetch_bookmark_list true envC10 "obsidian").2 = some [] ∧
    Effect.logInfo "No bookmarks found for the specified tag." ∈
      (fetch_bookmark_list true envC10 "obsidian").1 ∧
    Effect.logError ("API Error: " ++ "api broke") ∈
      (fetch_bookmark_list true envC10 "obsidian").1 ∧
    (run cfg0 envC10 "obsidian").2 = Except.ok () ∧
    (run cfg0 envC10 "obsidian").1.all
      (fun e => !isPageFetch e && !isWriteEffect e && !isDeleteEffect e) = true := by
  have h := empty_bookmarks_clean_end cfg0 envC10 "obsidian"
    ⟨some [], some "api broke"⟩ rfl (Or.inr rfl)
  exact ⟨h.1, h.2.1, h.2.2.1 "api broke" rfl, h.2.2.2 rfl⟩

/-- The download step performs exactly one page GET, for the given URL. -/
theorem download_and_convert_pagefetch (env : Env) (url : String) :
    (download_and_convert env url).1.filterMap pageFetchUrl = [url] := by
  unfold download_and_convert
  rcases env.fetchPage url with _ | ⟨ok, body⟩
  · rfl
  · cases ok
    · rfl
    · rcases hc : env.convert body with u | t <;> simp only [hc] <;> rfl

/-- The save step performs no page GET. -/
theorem save_markdown_pagefetch (cfg : Config) (today title content : String) :
    (save_markdown cfg today title content).filterMap pageFetchUrl = [] := by
  unfold save_markdown
  by_cases hsd : strTruthy cfg.save_dir = true <;>
    by_cases hdry : cfg.dryrun = true <;>
      simp only [hsd, hdry, Bool.not_true, Bool.not_false, if_true, if_false,
        ite_true, ite_false, Bool.false_eq_true] <;> rfl

/-- C4: with the delete-after-processing policy disabled, the per-item loop
performs the page fetch for exactly the first bookmark with a truthy URL
(and for no other bookmark) before stopping. -/
theorem single_shot_when_delete_disabled (cfg : Config) (env : Env)
    (bms : List Bookmark) (hdel : cfg.delete_bookmark = false) :
    (processLoop cfg env bms).1.filterMap pageFetchUrl =
      (firstEligibleUrl bms).toList := by
  induction bms with
  | nil => rfl
  | cons bm rest ih =>
    by_cases hurl : strTruthy (getEntry bm).url = true
    · rcases hu : (getEntry bm).url with _ | u
      · rw [hu] at hurl
        exact absurd hurl (by simp [strTruthy])
      · have hud : (getEntry bm).url.getD "" = u := by rw [hu]; rfl
        rcases hd : download_and_convert env u with ⟨fxd, r⟩
        have hfd : fxd.filterMap pageFetchUrl = [u] := by
          have := download_and_convert_pagefetch env u
          rw [hd] at this
          exact this
        have hfe : firstEligibleUrl (bm :: rest) = some u := by
          have h2 := hurl
          rw [hu] at h2
          simp only [firstEligibleUrl, hu, h2, if_true, ite_true]
        rcases r with c | md
        · simp only [processLoop, hurl, Bool.not_true, Bool.false_eq_true,
            if_false, ite_false, hud, hd, List.filterMap_append, hfd, hfe,
            Option.toList_some]
          rfl
        · simp only [processLoop, hurl, Bool.not_true, Bool.false_eq_true,
            if_false, ite_false, hud, hd, hdel, Bool.not_false, if_true, ite_true,
            List.filterMap_append, hfd, hfe, Option.toList_some]
          by_cases hmd : (md == "") = true
          · simp only [hmd, Bool.not_true, Bool.false_eq_true, if_false, ite_false]
            rfl
          · simp only [Bool.not_eq_true] at hmd
            by_cases hsd : strTruthy cfg.save_dir = true <;>
              simp only [hmd, Bool.not_false, if_true, ite_true, hsd,
                Bool.not_true, Bool.false_eq_true, if_false, ite_false,
                List.filterMap_append, save_markdown_pagefetch] <;> rfl
    · have hfalse : strTruthy (getEntry bm).url = false := by
        simpa using hurl
      simp only [processLoop, hfalse, Bool.not_false, if_true, ite_true,
        List.cons_append, List.nil_append, List.filterMap_cons]
      simp only [firstEligibleUrl, hfalse, Bool.false_eq_true, if_false, ite_false]
      simpa [pageFetchUrl] using ih

/-- Configuration with the delete policy disabled. -/
def cfgNoDel : Config := ⟨some "vault", false, false⟩

/-- C4 witness: with two eligible bookmarks and deletion disabled, only the
first URL is fetched. -/
theorem single_shot_when_delete_disabled_witness :
    (processLoop cfgNoDel baseEnv [bm0, bm1]).1.filterMap pageFetchUrl =
      (firstEligibleUrl [bm0, bm1]).toList ∧
    (firstEligibleUrl [bm0, bm1]).toList = ["http://example.com"] :=
  ⟨single_shot_when_delete_disabled cfgNoDel baseEnv [bm0, bm1] rfl, rfl⟩

/-- No archive-file write, no directory creation, no delete request. -/
def noWriteEffects (e : Effect) : Bool :=
  !isWriteEffect e && !isMkdirEffect e && !isDeleteEffect e

/-- Console effects are neither writes, mkdirs, nor deletes. -/
theorem noWriteEffects_of_console (e : Effect) (h : isConsole e = true) :
    noWriteEffects e = true := by
  cases e <;> simp_all [isConsole, noWriteEffects, isWriteEffect, isMkdirEffect,
    isDeleteEffect]

/-- Console or page-fetch effects are neither writes, mkdirs, nor deletes. -/
theorem noWriteEffects_of_console_or_page (e : Effect)
    (h : (isConsole e || isPageFetch e) = true) : noWriteEffects e = true := by
  cases e <;> simp_all [isConsole, isPageFetch, noWriteEffects, isWriteEffect,
    isMkdirEffect, isDeleteEffect]

/-- Console or token-write effects are neither writes, mkdirs, nor deletes. -/
theorem noWriteEffects_of_console_or_token (e : Effect)
    (h : (isConsole e || isTokenWrite e) = true) : noWriteEffects e = true := by
  cases e <;> simp_all [isConsole, isTokenWrite, noWriteEffects, isWriteEffect,
    isMkdirEffect, isDeleteEffect]

/-- Console or search effects are neither writes, mkdirs, nor deletes. -/
theorem noWriteEffects_of_console_or_search (e : Effect)
    (h : (isConsole e || isSearchEffect e) = true) : noWriteEffects e = true := by
  cases e <;> simp_all [isConsole, isSearchEffect, noWriteEffects, isWriteEffect,
    isMkdirEffect, isDeleteEffect]

/-- Under dryrun the loop emits no write, mkdir, or delete effect. -/
theorem processLoop_dryrun_all (cfg : Config) (env : Env) (hdry : cfg.dryrun = true)
    (bms : List Bookmark) :
    (processLoop cfg env bms).1.all noWriteEffects = true := by
  induction bms with
  | nil => rfl
  | cons bm rest ih =>
    by_cases hurl : strTruthy (getEntry bm).url = true
    · rcases hd : download_and_convert env ((getEntry bm).url.getD "") with ⟨fxd, r⟩
      have hfd : fxd.all noWriteEffects = true := by
        have h1 := download_and_convert_all_shape env ((getEntry bm).url.getD "")
        rw [hd] at h1
        exact all_imp_of_all _ _ noWriteEffects_of_console_or_page fxd h1
      rcases r with c | md
      · simp only [processLoop, hurl, Bool.not_true, Bool.false_eq_true, if_false,
          ite_false, hd, List.all_append, hfd, Bool.and_true, Bool.true_and]
        rfl
      · have hD : delete_bookmark true cfg env ((getEntry bm).url.getD "") =
            ([Effect.logInfo
                ("Deleting bookmark for " ++ (getEntry bm).url.getD "" ++ "..."),
              Effect.logInfo
                ("DRY RUN: Skipping bookmark deletion for " ++
                  (getEntry bm).url.getD "" ++ ".")], Except.ok ()) := by
          unfold delete_bookmark
          simp [hdry]
        have hfsv : (save_markdown cfg env.today
            ((getEntry bm).title.getD "No Title") md).all noWriteEffects = true :=
          all_imp_of_all _ _ noWriteEffects_of_console _
            (save_markdown_dryrun_all_console cfg env.today _ md hdry)
        by_cases hdel : cfg.delete_bookmark = true
        all_goals by_cases hmd : (md == "") = true
        all_goals try have hmd2 : (md == "") = false := by simpa using hmd
        all_goals try have hdel2 : cfg.delete_bookmark = false := by simpa using hdel
        · simp only [processLoop, hurl, Bool.not_true, Bool.false_eq_true, if_false,
            ite_false, hd, hmd, hdel, hD, List.all_append, hfd, ih, Bool.and_true,
            Bool.true_and]
          rfl
        · by_cases hsd : strTruthy cfg.save_dir = true
          · simp only [processLoop, hurl, Bool.not_true, Bool.not_false,
              Bool.false_eq_true, if_false, ite_false, if_true, ite_true, hd, hmd2,
              hsd, hdel, hD, List.all_append, hfd, hfsv, ih, Bool.and_true,
              Bool.true_and]
            rfl
          · have hsd2 : strTruthy cfg.save_dir = false := by simpa using hsd
            simp only [processLoop, hurl, Bool.not_true, Bool.not_false,
              Bool.false_eq_true, if_false, ite_false, if_true, ite_true, hd, hmd2,
              hsd2, hdel, hD, List.all_append, hfd, ih, Bool.and_true, Bool.true_and]
            rfl
        · simp only [processLoop, hurl, Bool.not_true, Bool.not_false,
            Bool.false_eq_true, if_false, ite_false, if_true, ite_true, hd, hmd,
            hdel2, List.all_append, hfd, Bool.and_true, Bool.true_and]
          rfl
        · by_cases hsd : strTruthy cfg.save_dir = true
          · simp only [processLoop, hurl, Bool.not_true, Bool.not_false,
              Bool.false_eq_true, if_false, ite_false, if_true, ite_true, hd, hmd2,
              hsd, hdel2, List.all_append, hfd, hfsv, Bool.and_true, Bool.true_and]
            rfl
          · have hsd2 : strTruthy cfg.save_dir = false := by simpa using hsd
            simp only [processLoop, hurl, Bool.not_true, Bool.not_false,
              Bool.false_eq_true, if_false, ite_false, if_true, ite_true, hd, hmd2,
              hsd2, hdel2, List.all_append, hfd, Bool.and_true, Bool.true_and]
            rfl
    · have hfalse : strTruthy (getEntry bm).url = false := by simpa using hurl
      simp only [processLoop, hfalse, Bool.not_false, if_true, ite_true,
        List.cons_append, List.nil_append, List.all_cons, ih, Bool.and_true]
      rfl

/-- C6: with dryrun set, the whole run performs no archive-file write, no
directory creation, and no delete request; when a save directory is
configured the skipped write is still logged with its full artifact path. -/
theorem dryrun_no_writes (cfg : Config) (env : Env) (tag : String)
    (hdry : cfg.dryrun = true) :
    (run cfg env tag).1.all noWriteEffects = true ∧
    (∀ title content, strTruthy cfg.save_dir = true →
      Effect.logInfo ("Saving Markdown to " ++
        os_path_join (cfg.save_dir.getD "")
          (env.today ++ "_" ++ sanitize_filename title ++ ".md") ++ "...") ∈
        save_markdown cfg env.today title content) := by
  constructor
  · rcases hA : authenticate env with ⟨fxa, ra⟩
    have hfa : fxa.all noWriteEffects = true := by
      have h1 := authenticate_all_shape env
      rw [hA] at h1
      exact all_imp_of_all _ _ noWriteEffects_of_console_or_token fxa h1
    rcases ra with c | b
    · simp only [run, hA, hfa]
    · rcases b
      · simp only [run, hA, hfa]
      · rcases hF : fetch_bookmark_list true env tag with ⟨fxf, ob⟩
        have hff : fxf.all noWriteEffects = true := by
          have h1 := fetch_bookmark_list_all_shape true env tag
          rw [hF] at h1
          exact all_imp_of_all _ _ noWriteEffects_of_console_or_search fxf h1
        rcases ob with _ | bms
        · simp only [run, hA, hF, List.all_append, hfa, hff, Bool.and_true,
            Bool.true_and]
        · by_cases hbe : bms.isEmpty = true
          · simp only [run, hA, hF, hbe, if_true, ite_true, List.all_append, hfa,
              hff, Bool.and_true, Bool.true_and]
          · have hbe2 : bms.isEmpty = false := by simpa using hbe
            rcases hP : processLoop cfg env bms with ⟨fxp, ex⟩
            have hfp : fxp.all noWriteEffects = true := by
              have h1 := processLoop_dryrun_all cfg env hdry bms
              rw [hP] at h1
              exact h1
            rcases ex <;>
              simp only [run, hA, hF, hbe2, Bool.false_eq_true, if_false, ite_false,
                hP, List.all_append, List.all_cons, List.all_nil, hfa, hff, hfp,
                Bool.and_true, Bool.true_and] <;> try rfl
  · intro title content hsd
    unfold save_markdown
    simp only [hsd, Bool.not_true, Bool.false_eq_true, if_false, ite_false, hdry,
      if_true, ite_true]
    simp

/-- Configuration with a save directory and dryrun enabled. -/
def cfgDry : Config := ⟨some "vault", true, true⟩

/-- C6 witness: the concrete dryrun configuration on the benign
environment. -/
theorem dryrun_no_writes_witness :
    (run cfgDry baseEnv "obsidian").1.all noWriteEffects = true ∧
    Effect.logInfo ("Saving Markdown to " ++
      os_path_join "vault"
        ("20261012" ++ "_" ++ sanitize_filename "Example Title" ++ ".md") ++ "...") ∈
      save_markdown cfgDry "20261012" "Example Title" "content" := by
  have h := dryrun_no_writes cfgDry baseEnv "obsidian" rfl
  exact ⟨h.1, h.2 "Example Title" "content" rfl⟩

/-- C7: with no save directory configured (preview mode), a bookmark whose
fetch and conversion succeed with non-empty output has its content printed
to standard output only — no file write — yet, with the delete policy on
and dryrun off, the delete request for it is still issued and the loop
moves on. -/
theorem preview_mode_still_deletes (cfg : Config) (env : Env) (bm : Bookmark)
    (rest : List Bookmark) (url title body md : String)
    (hurl : (getEntry bm).url = some url) (hne : url ≠ "")
    (htitle : (getEntry bm).title = some title)
    (hsd : strTruthy cfg.save_dir = false)
    (hdel : cfg.delete_bookmark = true) (hdry : cfg.dryrun = false)
    (hfetch : env.fetchPage url = FetchOutcome.status true body)
    (hconv : env.convert body = Except.ok md) (hmd : md ≠ "")
    (hdelok : env.deleteReq url = DeleteOutcome.status true) :
    processLoop cfg env (bm :: rest) =
      ([Effect.logInfo ("--- Processing: " ++ title ++ " ---"),
        Effect.logInfo "Downloading data from URL...", Effect.httpGetPage url,
        Effect.logInfo "Converting data to Markdown...",
        Effect.printOut "--- Markdown Output ---", Effect.printOut md,
        Effect.printOut "--- End of Markdown ---",
        Effect.logInfo ("Deleting bookmark for " ++ url ++ "..."),
        Effect.httpDelete url, Effect.logInfo "Bookmark deleted successfully."]
        ++ (processLoop cfg env rest).1,
       (processLoop cfg env rest).2) := by
  have hst : strTruthy (getEntry bm).url = true := by
    rw [hurl]
    simp [strTruthy, hne]
  have hud : (getEntry bm).url.getD "" = url := by
    rw [hurl]
    rfl
  have hmd2 : (md == "") = false := by simpa using hmd
  have hD : download_and_convert env url =
      ([Effect.logInfo "Downloading data from URL...", Effect.httpGetPage url,
        Effect.logInfo "Converting data to Markdown..."], Except.ok md) := by
    unfold download_and_convert
    rw [hfetch]
    simp [hconv]
  have hDel : delete_bookmark true cfg env url =
      ([Effect.logInfo ("Deleting bookmark for " ++ url ++ "..."),
        Effect.httpDelete url, Effect.logInfo "Bookmark deleted successfully."],
       Except.ok ()) := by
    unfold delete_bookmark
    rw [hdelok]
    simp [hdry]
  simp [processLoop, hst, hud, htitle, hD, hDel, hmd2, hsd, hdel, hdry]

/-- Configuration for preview mode: no save directory, delete policy on. -/
def cfgPreview : Config := ⟨none, false, true⟩

/-- C7 witness: the benign environment in preview mode. -/
theorem preview_mode_still_deletes_witness :
    processLoop cfgPreview baseEnv [bm0] =
      ([Effect.logInfo ("--- Processing: " ++ "Example Title" ++ " ---"),
        Effect.logInfo "Downloading data from URL...",
        Effect.httpGetPage "http://example.com",
        Effect.logInfo "Converting data to Markdown...",
        Effect.printOut "--- Markdown Output ---",
        Effect.printOut ("md " ++ "page body"),
        Effect.printOut "--- End of Markdown ---",
        Effect.logInfo ("Deleting bookmark for " ++ "http://example.com" ++ "..."),
        Effect.httpDelete "http://example.com",
        Effect.logInfo "Bookmark deleted successfully."]
        ++ (processLoop cfgPreview baseEnv []).1,
       (processLoop cfgPreview baseEnv []).2) :=
  preview_mode_still_deletes cfgPreview baseEnv bm0 [] "http://example.com"
    "Example Title" "page body" ("md " ++ "page body") rfl (by decide) rfl rfl rfl
    rfl rfl rfl (by decide) rfl

/-- Environment in which every conversion fails. -/
def envC1 : Env := { baseEnv with convert := fun _ => Except.error () }

/-- C1 counterexample: conversion fails for the only bookmark, yet the run
still issues the delete request for it (and writes no artifact). -/
theorem conversion_failure_still_deletes :
    envC1.convert "page body" = Except.error () ∧
    Effect.httpDelete "http://example.com" ∈ (run cfg0 envC1 "obsidian").1 ∧
    (run cfg0 envC1 "obsidian").1.all (fun e => !isWriteEffect e) = true := by
  refine ⟨rfl, by decide, by decide⟩

/-- C1 (amended): a conversion failure is logged and nothing is saved for
the item, but — with the delete policy on and dryrun off — the delete
request for that item is still issued and the loop continues with the
remaining items; a fetch failure is not caught at the item boundary: the
loop ends in an uncaught exception with no save and no delete for the
item. -/
theorem item_failure_behaviour (cfg : Config) (env : Env) (bm : Bookmark)
    (rest : List Bookmark) (url title body : String)
    (hurl : (getEntry bm).url = some url) (hne : url ≠ "")
    (htitle : (getEntry bm).title = some title)
    (hdel : cfg.delete_bookmark = true) (hdry : cfg.dryrun = false) :
    (env.fetchPage url = FetchOutcome.status true body →
      env.convert body = Except.error () →
      env.deleteReq url = DeleteOutcome.status true →
      processLoop cfg env (bm :: rest) =
        ([Effect.logInfo ("--- Processing: " ++ title ++ " ---"),
          Effect.logInfo "Downloading data from URL...", Effect.httpGetPage url,
          Effect.logInfo "Converting data to Markdown...",
          Effect.logError "Failed to convert data to Markdown.",
          Effect.logInfo ("Deleting bookmark for " ++ url ++ "..."),
          Effect.httpDelete url, Effect.logInfo "Bookmark deleted successfully."]
          ++ (processLoop cfg env rest).1,
         (processLoop cfg env rest).2)) ∧
    (env.fetchPage url = FetchOutcome.transportError →
      processLoop cfg env (bm :: rest) =
        ([Effect.logInfo ("--- Processing: " ++ title ++ " ---"),
          Effect.logInfo "Downloading data from URL...", Effect.httpGetPage url],
         LoopExit.crashed Crash.requestException)) := by
  have hst : strTruthy (getEntry bm).url = true := by
    rw [hurl]
    simp [strTruthy, hne]
  have hud : (getEntry bm).url.getD "" = url := by
    rw [hurl]
    rfl
  constructor
  · intro hfetch hconv hdelok
    have hD : download_and_convert env url =
        ([Effect.logInfo "Downloading data from URL...", Effect.httpGetPage url,
          Effect.logInfo "Converting data to Markdown...",
          Effect.logError "Failed to convert data to Markdown."], Except.ok "") := by
      unfold download_and_convert
      rw [hfetch]
      simp [hconv]
    have hDel : delete_bookmark true cfg env url =
        ([Effect.logInfo ("Deleting bookmark for " ++ url ++ "..."),
          Effect.httpDelete url, Effect.logInfo "Bookmark deleted successfully."],
         Except.ok ()) := by
      unfold delete_bookmark
      rw [hdelok]
      simp [hdry]
    simp [processLoop, hst, hud, htitle, hD, hDel, hdel, hdry]
  · intro hfetch
    have hD : download_and_convert env url =
        ([Effect.logInfo "Downloading data from URL...", Effect.httpGetPage url],
         Except.error Crash.requestException) := by
      unfold download_and_convert
      rw [hfetch]
    simp [processLoop, hst, hud, htitle, hD]

/-- C1 witness: the conversion-failure branch at a concrete input. -/
theorem item_failure_behaviour_witness :
    processLoop cfg0 envC1 [bm0, bm1] =
      ([Effect.logInfo ("--- Processing: " ++ "Example Title" ++ " ---"),
        Effect.logInfo "Downloading data from URL...",
        Effect.httpGetPage "http://example.com",
        Effect.logInfo "Converting data to Markdown...",
        Effect.logError "Failed to convert data to Markdown.",
        Effect.logInfo ("Deleting bookmark for " ++ "http://example.com" ++ "..."),
        Effect.httpDelete "http://example.com",
        Effect.logInfo "Bookmark deleted successfully."]
        ++ (processLoop cfg0 envC1 [bm1]).1,
       (processLoop cfg0 envC1 [bm1]).2) :=
  (item_failure_behaviour cfg0 envC1 bm0 [bm1] "http://example.com" "Example Title"
    "page body" rfl (by decide) rfl rfl rfl).1 rfl rfl rfl

/-- Environment in which the page fetch of the first bookmark fails at the
transport level while a second bookmark awaits processing. -/
def envC2 : Env := { baseEnv with
  search := fun _ => SearchOutcome.parsed ⟨some [bm0, bm1], none⟩,
  fetchPage := fun u =>
    if u == "http://example.com" then FetchOutcome.transportError
    else FetchOutcome.status true "page body" }

/-- C2 counterexample: a transport failure fetching the first bookmark
aborts the whole run — the second bookmark is never fetched, so the run
does not recover at the item boundary. -/
theorem fetch_failure_crashes_run :
    (run cfg0 envC2 "obsidian").2 = Except.error Crash.requestException ∧
    Effect.httpGetPage "http://second.example" ∉ (run cfg0 envC2 "obsidian").1 ∧
    (run cfg0 envC2 "obsidian").1.all
      (fun e => !isWriteEffect e && !isDeleteEffect e) = true := by
  refine ⟨rfl, by decide, by decide⟩

/-- C2 (amended): a transport failure or non-success status while fetching
the page of a bookmark writes no file and issues no delete for that item, but
it is not recovered: the loop ends in an uncaught exception, the remaining
items are not processed, and the run as a whole aborts with that error. -/
theorem fetch_failure_aborts_run (cfg : Config) (env : Env) (bm : Bookmark)
    (rest : List Bookmark) (url title : String)
    (hurl : (getEntry bm).url = some url) (hne : url ≠ "")
    (htitle : (getEntry bm).title = some title)
    (hfetch : env.fetchPage url = FetchOutcome.transportError ∨
      ∃ body, env.fetchPage url = FetchOutcome.status false body) :
    processLoop cfg env (bm :: rest) =
      ([Effect.logInfo ("--- Processing: " ++ title ++ " ---"),
        Effect.logInfo "Downloading data from URL...", Effect.httpGetPage url],
       LoopExit.crashed Crash.requestException) ∧
    ∀ tag, (authenticate env).2 = Except.ok true →
      (fetch_bookmark_list true env tag).2 = some (bm :: rest) →
      (run cfg env tag).2 = Except.error Crash.requestException := by
  have hst : strTruthy (getEntry bm).url = true := by
    rw [hurl]
    simp [strTruthy, hne]
  have hud : (getEntry bm).url.getD "" = url := by
    rw [hurl]
    rfl
  have hD : download_and_convert env url =
      ([Effect.logInfo "Downloading data from URL...", Effect.httpGetPage url],
       Except.error Crash.requestException) := by
    unfold download_and_convert
    rcases hfetch with h | ⟨body, h⟩ <;> (rw [h]; try rfl)
  have hloop : processLoop cfg env (bm :: rest) =
      ([Effect.logInfo ("--- Processing: " ++ title ++ " ---"),
        Effect.logInfo "Downloading data from URL...", Effect.httpGetPage url],
       LoopExit.crashed Crash.requestException) := by
    simp [processLoop, hst, hud, htitle, hD]
  refine ⟨hloop, ?_⟩
  intro tag hauth hlist
  rcases hA : authenticate env with ⟨fxa, ra⟩
  rw [hA] at hauth
  simp only at hauth
  subst hauth
  rcases hF : fetch_bookmark_list true env tag with ⟨fxf, ob⟩
  rw [hF] at hlist
  simp only at hlist
  subst hlist
  simp [run, hA, hF, hloop]

/-- C2 witness: the first of two bookmarks hits a transport error. -/
theorem fetch_failure_aborts_run_witness :
    processLoop cfg0 envC2 [bm0, bm1] =
      ([Effect.logInfo ("--- Processing: " ++ "Example Title" ++ " ---"),
        Effect.logInfo "Downloading data from URL...",
        Effect.httpGetPage "http://example.com"],
       LoopExit.crashed Crash.requestException) ∧
    (run cfg0 envC2 "obsidian").2 = Except.error Crash.requestException := by
  have h := fetch_failure_aborts_run cfg0 envC2 bm0 [bm1] "http://example.com"
    "Example Title" rfl (by decide) rfl (Or.inl rfl)
  exact ⟨h.1, h.2 "obsidian" rfl rfl⟩

/-- Environment in which every delete request returns a non-success
status, with two bookmarks to process. -/
def envC3 : Env := { baseEnv with
  search := fun _ => SearchOutcome.parsed ⟨some [bm0, bm1], none⟩,
  deleteReq := fun _ => DeleteOutcome.status false }

/-- C3 counterexample: the delete of the first bookmark fails after its archive
write; the write is kept, but the run aborts and the second bookmark is
never processed — the failure is not contained at the item boundary. -/
theorem delete_failure_stops_batch :
    (run cfg0 envC3 "obsidian").2 = Except.error Crash.requestException ∧
    Effect.fileWrite
      (os_path_join "vault"
        ("20261012" ++ "_" ++ sanitize_filename "Example Title" ++ ".md"))
      ("md " ++ "page body") ∈ (run cfg0 envC3 "obsidian").1 ∧
    Effect.httpGetPage "http://second.example" ∉ (run cfg0 envC3 "obsidian").1 := by
  refine ⟨rfl, by decide, by decide⟩

/-- C3 (amended): a failed delete does not undo the archive write already
performed for the item — the file write stays in the trace — but the
failure propagates as an uncaught exception, so the loop stops and the
remaining items are not processed. -/
theorem delete_failure_keeps_write_but_aborts (cfg : Config) (env : Env)
    (bm : Bookmark) (rest : List Bookmark) (url title body md dir : String)
    (hurl : (getEntry bm).url = some url) (hne : url ≠ "")
    (htitle : (getEntry bm).title = some title)
    (hsd : cfg.save_dir = some dir) (hdirne : dir ≠ "")
    (hdel : cfg.delete_bookmark = true) (hdry : cfg.dryrun = false)
    (hfetch : env.fetchPage url = FetchOutcome.status true body)
    (hconv : env.convert body = Except.ok md) (hmd : md ≠ "")
    (hfail : env.deleteReq url = DeleteOutcome.status false ∨
      env.deleteReq url = DeleteOutcome.transportError) :
    processLoop cfg env (bm :: rest) =
      ([Effect.logInfo ("--- Processing: " ++ title ++ " ---"),
        Effect.logInfo "Downloading data from URL...", Effect.httpGetPage url,
        Effect.logInfo "Converting data to Markdown...",
        Effect.logInfo ("Saving Markdown to " ++
          os_path_join dir (env.today ++ "_" ++ sanitize_filename title ++ ".md")
          ++ "..."),
        Effect.makeDirs dir,
        Effect.fileWrite
          (os_path_join dir (env.today ++ "_" ++ sanitize_filename title ++ ".md"))
          md,
        Effect.logInfo ("Deleting bookmark for " ++ url ++ "..."),
        Effect.httpDelete url],
       LoopExit.crashed Crash.requestException) := by
  have hst : strTruthy (getEntry bm).url = true := by
    rw [hurl]
    simp [strTruthy, hne]
  have hud : (getEntry bm).url.getD "" = url := by
    rw [hurl]
    rfl
  have hmd2 : (md == "") = false := by simpa using hmd
  have hsdt : strTruthy cfg.save_dir = true := by
    rw [hsd]
    simp [strTruthy, hdirne]
  have hD : download_and_convert env url =
      ([Effect.logInfo "Downloading data from URL...", Effect.httpGetPage url,
        Effect.logInfo "Converting data to Markdown..."], Except.ok md) := by
    unfold download_and_convert
    rw [hfetch]
    simp [hconv]
  have hS : save_markdown cfg env.today title md =
      [Effect.logInfo ("Saving Markdown to " ++
        os_path_join dir (env.today ++ "_" ++ sanitize_filename title ++ ".md")
        ++ "..."),
       Effect.makeDirs dir,
       Effect.fileWrite
        (os_path_join dir (env.today ++ "_" ++ sanitize_filename title ++ ".md"))
        md] := by
    unfold save_markdown
    simp [hsd, strTruthy, hdirne, hdry]
  have hDel : delete_bookmark true cfg env url =
      ([Effect.logInfo ("Deleting bookmark for " ++ url ++ "..."),
        Effect.httpDelete url], Except.error Crash.requestException) := by
    unfold delete_bookmark
    rcases hfail with h | h <;> rw [h] <;> simp [hdry]
  simp only [processLoop, hst, Bool.not_true, Bool.false_eq_true, if_false,
    ite_false, hud, htitle, Option.getD_some, hD, hmd2, Bool.not_false, if_true,
    ite_true, hsdt, hS, hdel, hDel, List.append_assoc, List.cons_append,
    List.nil_append]

/-- C3 witness: the concrete failing-delete environment. -/
theorem delete_failure_keeps_write_but_aborts_witness :
    processLoop cfg0 envC3 [bm0, bm1] =
      ([Effect.logInfo ("--- Processing: " ++ "Example Title" ++ " ---"),
        Effect.logInfo "Downloading data from URL...",
        Effect.httpGetPage "http://example.com",
        Effect.logInfo "Converting data to Markdown...",
        Effect.logInfo ("Saving Markdown to " ++
          os_path_join "vault"
            ("20261012" ++ "_" ++ sanitize_filename "Example Title" ++ ".md")
          ++ "..."),
        Effect.makeDirs "vault",
        Effect.fileWrite
          (os_path_join "vault"
            ("20261012" ++ "_" ++ sanitize_filename "Example Title" ++ ".md"))
          ("md " ++ "page body"),
        Effect.logInfo ("Deleting bookmark for " ++ "http://example.com" ++ "..."),
        Effect.httpDelete "http://example.com"],
       LoopExit.crashed Crash.requestException) :=
  delete_failure_keeps_write_but_aborts cfg0 envC3 bm0 [bm1] "http://example.com"
    "Example Title" "page body" ("md " ++ "page body") "vault" rfl (by decide) rfl
    rfl (by decide) rfl rfl rfl rfl (by decide) (Or.inl rfl)

end Hatebu
